import Mathlib

/-!
Shallow embedding of the AI Vault Coach backend (Express/JS).

The repository holds several historical variants of the same server:
  src/index.js                 minimal /ask (question || message, validated)
  src/unnamed/part_000         /ask with customPrompt + memory, /ask-stream
  src/unnamed/part_001         same /ask plus vaultType, and /get-nudge (threshold rules)
  src/unnamed/part_002 (doc 1) /v1/coach/ask (adaptive mode) and /v1/coach/nudge
  src/unnamed/part_002 (doc 2) /ask (same as part_001) and a random /get-nudge
  src/unnamed/part_003 (doc 1) legacy /ask: req.body.message, NO validation
  src/unnamed/part_003 (doc 2) /ask with Strict/Friendly modes and rolling history
  src/unnamed/part_004         /ask with rolling history

JS conventions modelled here:
  - a possibly-undefined string is `Option String`; `undefined` is `none`;
  - JS truthiness of a string value: `undefined` and `""` are falsy;
  - `a || b` on string values keeps `a` when truthy, else `b`;
  - template interpolation of an undefined value prints the text "undefined";
  - a comparison `x < c` / `x >= c` where `x` is undefined is false (NaN);
  - `Math.round x` is `Int.floor (x + 1/2)` (JS rounds half toward +inf);
  - `Array.prototype.find` is `List.find?`; `arr.find(p) || d` is `getD`;
  - `arr.slice(-n)` under `if (arr.length > n)` keeps the last `n` entries;
  - numbers are modelled as `Int` (caller-supplied streak/progress) and the
    balance/target columns as `Rat`, so that `round(balance/target*100)` is
    exact; division by zero (target_amount = 0) is outside the spec's stated
    invariant (target_amount > 0) and differs from JS there.
Handlers are pure functions of the request body (plus the rows the store
returns, and a `Fin 5` draw standing for the one `Math.random()` consumption
in the repository); `Except.error e` is a 400 response with error text `e`
produced before any upstream call, `Except.ok msgs` is the upstream
chat-completion call with message list `msgs`.
-/

namespace VaultCoach

/-- JS truthiness of a string-or-undefined value: undefined and "" are falsy. -/
def truthy : Option String → Bool
  | none => false
  | some s => !(s == "")

/-- JS `a || b` on string-or-undefined values. -/
def jsOr (a b : Option String) : Option String :=
  if truthy a then a else b

/-- JS template interpolation of a string-or-undefined value. -/
def jsShow : Option String → String
  | none => "undefined"
  | some s => s

/-- JS template interpolation of a number-or-undefined value. -/
def jsShowInt : Option Int → String
  | none => "undefined"
  | some n => toString n

/-- JS `x < c` where `x` may be undefined (then NaN, so false). -/
def jsLt (x : Option Int) (c : Int) : Bool :=
  match x with
  | none => false
  | some v => decide (v < c)

/-- JS `x >= c` where `x` may be undefined (then NaN, so false). -/
def jsGe (x : Option Int) (c : Int) : Bool :=
  match x with
  | none => false
  | some v => decide (c ≤ v)

/-- JS `Math.round`, exact on rationals: floor (x + 1/2). -/
def jsRound (x : ℚ) : ℤ := ⌊x + 1/2⌋

/-- JS `String.prototype.trim`: strip leading and trailing whitespace. -/
def jsTrim (s : String) : String :=
  ⟨((s.toList.dropWhile Char.isWhitespace).reverse.dropWhile
      Char.isWhitespace).reverse⟩

/-- Whether `needle` occurs as a contiguous run of `hay`. -/
def listIncludes : List Char → List Char → Bool
  | [], needle => needle.isEmpty
  | c :: t, needle => needle.isPrefixOf (c :: t) || listIncludes t needle

/-- JS `String.prototype.includes`: substring containment. -/
def strIncludes (hay needle : String) : Bool :=
  listIncludes hay.toList needle.toList

/-- JS `String.prototype.toLowerCase` (character-wise lowering). -/
def strToLower (s : String) : String := ⟨s.toList.map Char.toLower⟩

/-- Message roles of the chat-completion API. -/
inductive Role
  | system
  | user
  | assistant
deriving DecidableEq, Repr

/-- One role-tagged message of a chat-completion request. -/
structure Turn where
  role : Role
  content : String
deriving DecidableEq, Repr

/-- A vault row as returned by the store
(src/unnamed/part_001 reads `vault_type, streak, current_balance, target_amount,
archived`; the destructuring defaults in the source apply only to absent
columns, which the store schema does not produce). -/
structure Vault where
  vault_type : String
  streak : Int
  current_balance : ℚ
  target_amount : ℚ
  archived : Bool
deriving DecidableEq, Repr

/-! ### part_002 (doc 1): adaptive personality detection -/

/-- src/unnamed/part_002 lines 94-121, `detectAdaptiveMode`:
keyword scan over the lowercased question, first match wins; fall back to the
requested mode when truthy, else "Warm & Friendly". -/
def detectAdaptiveMode (question requestedMode : String) : String :=
  let lower := strToLower question
  if strIncludes lower "stressed" || strIncludes lower "overwhelmed" ||
      strIncludes lower "anxious" then "Soothing & Calm"
  else if strIncludes lower "hype" || strIncludes lower "motivation" ||
      strIncludes lower "boost" then "Energetic & Motivating"
  else if strIncludes lower "discipline" ||
      strIncludes lower "hold me accountable" then "Professional & Direct"
  else if strIncludes lower "strategy" || strIncludes lower "optimize" ||
      strIncludes lower "plan" then "Expert Financial Advisor"
  else if truthy (some requestedMode) then requestedMode
  else "Warm & Friendly"

/-! ### part_001: /get-nudge threshold rules -/

/-- src/unnamed/part_001 lines 172-180: the emoji map of /get-nudge. -/
def emojiMap001 (vault_type : String) : String :=
  if vault_type = "Rent" then "🏠"
  else if vault_type = "Credit Card" then "💳"
  else if vault_type = "Emergency" then "🚨"
  else if vault_type = "Bills" then "🧾"
  else if vault_type = "Car" then "🚗"
  else if vault_type = "Custom" then "🎯"
  else if vault_type = "General" then "💰"
  else "📦"

/-- part_001 rule-1 message. -/
def msg001_kick (vault_type : String) : String :=
  "Let’s kickstart your " ++ emojiMap001 vault_type ++ " " ++ vault_type ++
    " vault — even $1 today builds momentum."

/-- part_001 rule-2 message. -/
def msg001_streak (streak : Int) (vault_type : String) : String :=
  "🔥 You're on a " ++ toString streak ++ "-day streak in your " ++
    emojiMap001 vault_type ++ " " ++ vault_type ++ " vault. Keep it alive!"

/-- part_001 rule-3 message. -/
def msg001_near (progress : Int) (vault_type : String) : String :=
  "🎯 You're " ++ toString (100 - progress) ++ "% away from finishing your " ++
    emojiMap001 vault_type ++ " " ++ vault_type ++ " vault. Almost there!"

/-- part_001 rule-4 message. -/
def msg001_half (vault_type : String) : String :=
  "👏 Halfway to crushing your " ++ emojiMap001 vault_type ++
    " Credit Card vault. Every day makes a difference."

/-- part_001 rule-5 (generic) message. -/
def msg001_grow (vault_type : String) : String :=
  "Your " ++ emojiMap001 vault_type ++ " " ++ vault_type ++
    " vault is growing. Add a little today to boost your streak. 🌱"

/-- src/unnamed/part_001 lines 184-196: the ordered threshold rules of
/get-nudge, on the selected vault's streak, computed progress and type. -/
def nudgeText001 (streak progress : Int) (vault_type : String) : String :=
  if progress < 15 then msg001_kick vault_type
  else if 5 ≤ streak then msg001_streak streak vault_type
  else if 90 ≤ progress then msg001_near progress vault_type
  else if vault_type = "Credit Card" ∧ 50 ≤ progress then msg001_half vault_type
  else msg001_grow vault_type

/-- src/unnamed/part_001 lines 156-160: `vaults.find(streak>=5) ||
vaults.find(type=="Credit Card") || vaults[0]`; `fallback` is `vaults[0]`. -/
def selectVault (vaults : List Vault) (fallback : Vault) : Vault :=
  match vaults.find? (fun v => decide (5 ≤ v.streak)) with
  | some v => v
  | none =>
    match vaults.find? (fun v => decide (v.vault_type = "Credit Card")) with
    | some v => v
    | none => fallback

/-- progress of a vault: `Math.round((current_balance / target_amount) * 100)`. -/
def progressOf (v : Vault) : Int :=
  jsRound (v.current_balance / v.target_amount * 100)

/-- Outcome of the record-based /get-nudge handler. -/
inductive NudgeResult
  | badRequest (err : String)
  | noVaults (msg : String)
  | nudge (msg : String)
deriving DecidableEq, Repr

/-- The store query of /get-nudge and getVaultContext: the user's rows with
`archived = false`, in store-return order. -/
def activeVaults (rows : List Vault) : List Vault :=
  rows.filter (fun v => !v.archived)

/-- src/unnamed/part_001 lines 132-203, the /get-nudge handler: `rows` is the
user's vault table; the store query keeps the rows with `archived = false` in
store-return order. -/
def getNudgePart001 (user_id : Option String) (rows : List Vault) : NudgeResult :=
  if truthy user_id = false then .badRequest "Missing user_id."
  else
    match activeVaults rows with
    | [] => .noVaults "You don’t have any vaults yet. Create one and start saving today 💰."
    | v0 :: rest =>
      let vault := selectVault (v0 :: rest) v0
      .nudge (nudgeText001 vault.streak (progressOf vault) vault.vault_type)

/-! ### part_002 (doc 1): /v1/coach/nudge on explicit fields -/

/-- src/unnamed/part_002 lines 201-208: the emoji map of /v1/coach/nudge. -/
def emojiMap002 (vault_type : String) : Option String :=
  if vault_type = "Credit Card" then some "💳"
  else if vault_type = "Emergency" then some "🚨"
  else if vault_type = "Bills" then some "📄"
  else if vault_type = "Car" then some "🚗"
  else if vault_type = "Custom" then some "🧩"
  else if vault_type = "General" then some "🏦"
  else none

/-- `emojiMap[vault_type] || "🏦"` with a possibly-undefined vault_type. -/
def emojiOpt (vault_type : Option String) : String :=
  match vault_type with
  | none => "🏦"
  | some s => (emojiMap002 s).getD "🏦"

/-- part_002 nudge default (generic) message. -/
def msg002_grow (vault_type : Option String) : String :=
  "Your " ++ emojiOpt vault_type ++ " " ++ jsShow vault_type ++
    " vault is growing. Add a little today 🌱"

/-- part_002 nudge rule-1 message. -/
def msg002_kick (vault_type : Option String) : String :=
  "Kickstart your " ++ emojiOpt vault_type ++ " " ++ jsShow vault_type ++
    " vault — even $1 builds momentum."

/-- part_002 nudge rule-2 message. -/
def msg002_streak (streak : Option Int) (vault_type : Option String) : String :=
  "🔥 You're on a " ++ jsShowInt streak ++ "-day streak in your " ++
    emojiOpt vault_type ++ " " ++ jsShow vault_type ++ " vault!"

/-- part_002 nudge rule-3 message; `100 - progress` needs progress defined,
which the guard `progress >= 90` guarantees. -/
def msg002_near (progress : Option Int) (vault_type : Option String) : String :=
  "🎉 You're " ++ jsShowInt ((progress.map (fun p => 100 - p))) ++
    "% from completing your " ++ emojiOpt vault_type ++ " " ++
    jsShow vault_type ++ " vault!"

/-- part_002 nudge rule-4 message. -/
def msg002_half (vault_type : Option String) : String :=
  "🏁 You're halfway to defeating your " ++ emojiOpt vault_type ++
    " Credit Card vault!"

/-- src/unnamed/part_002 lines 197-229, the /v1/coach/nudge body: every field
comes straight from the request and may be absent; comparisons against an
absent number are false. -/
def coachNudge (streak progress : Option Int) (vault_type : Option String) : String :=
  if jsLt progress 15 then msg002_kick vault_type
  else if jsGe streak 5 then msg002_streak streak vault_type
  else if jsGe progress 90 then msg002_near progress vault_type
  else if vault_type == some "Credit Card" && jsGe progress 50 then msg002_half vault_type
  else msg002_grow vault_type

/-- The /v1/coach/nudge handler: no validation, always HTTP 200 with a nudge. -/
def coachNudgeHandler (streak progress : Option Int) (vault_type : Option String) :
    Nat × String :=
  (200, coachNudge streak progress vault_type)

/-! ### Prompt templates (transcribed verbatim, after the source's `.trim()`) -/

/-- The default coach system prompt. The same literal appears in part_000's
/ask, part_003's second document and part_004. -/
def coachBaseTemplate : String :=
  "You are the AI Vault Coach — a supportive, practical financial guide who helps users build good saving habits, pay off debt, and stay motivated.\n\nYour tone is encouraging, empathetic, and goal-oriented — like a mix of a financial therapist and accountability partner.\n\nSpeak in clear, human, friendly language (not robotic or overly formal). Avoid jargon. Use short sentences. Always explain \"why\" when giving advice.\n\nWhen a user asks something vague or emotional (e.g. \"I’m stuck\" or \"I feel lost\"), respond with reassurance first, then offer a small step forward.\n\nAlways assume they are using the DebtVault app, where users can:\n- Create vaults (like for rent, credit cards, emergency)\n- Save daily micro-amounts toward those vaults\n- Track progress and streaks\n- Celebrate wins\n\nBe brief but helpful. If you're unsure how to respond, suggest asking the Vault Coach again in a more specific way."

/-- src/unnamed/part_001 /ask default prompt: the base template with the
active vault type interpolated after the first paragraph. -/
def template001 (vaultType : String) : String :=
  "You are the AI Vault Coach — a supportive, practical financial guide who helps users build good saving habits, pay off debt, and stay motivated.\n\nThe user is currently asking about their \"" ++ vaultType ++ "\" vault.\n\nYour tone is encouraging, empathetic, and goal-oriented — like a mix of a financial therapist and accountability partner.\n\nSpeak in clear, human, friendly language (not robotic or overly formal). Avoid jargon. Use short sentences. Always explain \"why\" when giving advice.\n\nWhen a user asks something vague or emotional (e.g. \"I’m stuck\" or \"I feel lost\"), respond with reassurance first, then offer a small step forward.\n\nAlways assume they are using the DebtVault app, where users can:\n- Create vaults (like for rent, credit cards, emergency)\n- Save daily micro-amounts toward those vaults\n- Track progress and streaks\n- Celebrate wins\n\nBe brief but helpful. If you're unsure how to respond, suggest asking the Vault Coach again in a more specific way."

/-- src/unnamed/part_003 (doc 2) "Strict" mode prompt. -/
def strictTemplate : String :=
  "You are a strict financial advisor who gives tough love. Be direct, firm, and focused on results. No fluff. Make the user take action. If they’re wasting money, call it out. Don’t be mean — just brutally honest. Always tie advice to their goals in the DebtVault app."

/-- src/unnamed/part_003 (doc 2) "Friendly" mode prompt. -/
def friendlyTemplate : String :=
  "You are a warm, supportive financial coach who sounds like a kind friend. Be very encouraging, uplifting, and use relatable examples. Never judge. Always start with reassurance. End with a small suggestion or gentle push. Assume the user is using DebtVault to save daily for things like rent, credit cards, or emergencies."

/-! ### Ask handlers -/

/-- src/index.js lines 29-51, /ask: `question || message`, validated, fixed
one-line system prompt. -/
def index_ask (question message : Option String) : Except String (List Turn) :=
  let userMessage := jsOr question message
  if truthy userMessage = false then .error "Missing message input."
  else .ok [⟨.system, "You are the AI Vault Coach."⟩, ⟨.user, userMessage.getD ""⟩]

/-- src/unnamed/part_000 lines 38-63: the message list of /ask. `customPrompt`
is the caller's `systemPrompt` field; a truthy value is used verbatim, else the
template; a non-empty `memory` adds a second, labelled system turn. -/
def p000_messages (customPrompt : Option String) (memory question : String) :
    List Turn :=
  ⟨.system, if truthy customPrompt then customPrompt.getD "" else coachBaseTemplate⟩ ::
    ((if memory ≠ "" then
        [⟨.system, "Here is recent user context:\n" ++ memory⟩] else []) ++
      [⟨.user, question⟩])

/-- src/unnamed/part_000 /ask handler (its `mode` field is read but unused). -/
def p000_ask (question : Option String) (memory : String)
    (customPrompt : Option String) : Except String (List Turn) :=
  if truthy question = false then .error "Missing question."
  else .ok (p000_messages customPrompt memory (question.getD ""))

/-- src/unnamed/part_000 /ask-stream handler: `systemPrompt` defaults to ""
and is used directly (possibly empty), no template fallback. -/
def p000_askStream (question : Option String) (systemPrompt memory : String) :
    Except String (List Turn) :=
  if truthy question = false then .error "Missing question."
  else .ok (⟨.system, systemPrompt⟩ ::
    ((if memory ≠ "" then
        [⟨.system, "Here is recent user context:\n" ++ memory⟩] else []) ++
      [⟨.user, question.getD ""⟩]))

/-- src/unnamed/part_001 /ask handler: as part_000's but the default template
interpolates `vaultType` (default "General"). The same handler text appears
again as part_002's second document. -/
def p001_ask (question : Option String) (memory : String)
    (customPrompt vaultType : Option String) : Except String (List Turn) :=
  if truthy question = false then .error "Missing question."
  else
    let sys := if truthy customPrompt then customPrompt.getD ""
      else template001 (vaultType.getD "General")
    .ok (⟨.system, sys⟩ ::
      ((if memory ≠ "" then
          [⟨.system, "Here is recent user context:\n" ++ memory⟩] else []) ++
        [⟨.user, question.getD ""⟩]))

/-- src/unnamed/part_003 lines 26-44, the legacy /ask: reads `req.body.message`
and performs NO validation — the upstream call is made even when the message is
absent (its content is then the undefined value). -/
def askLegacy (message : Option String) : Except String (List (Role × Option String)) :=
  .ok [(Role.system, some "You are the AI Vault Coach."), (Role.user, message)]

/-! ### Rolling conversation history (part_003 doc 2 and part_004)

The process-wide `conversationHistory` array. One exchange does:
push the user turn, `slice(-3)` when longer than 3, send
`[system] ++ history`, push the assistant turn, `slice(-6)` when longer
than 6. -/

/-- JS `if (arr.length > n) arr = arr.slice(-n)`. -/
def truncTo (n : Nat) (l : List Turn) : List Turn :=
  if n < l.length then l.drop (l.length - n) else l

/-- History right after pushing the new user turn and truncating to 3. -/
def historyAfterUser (h : List Turn) (question : String) : List Turn :=
  truncTo 3 (h ++ [⟨.user, question⟩])

/-- The message list sent upstream: the system prompt then the history
(which already ends with the new user turn). -/
def askMessages (systemPrompt : String) (h1 : List Turn) : List Turn :=
  ⟨.system, systemPrompt⟩ :: h1

/-- History after pushing the assistant reply and truncating to 6. -/
def historyAfterReply (h1 : List Turn) (reply : String) : List Turn :=
  truncTo 6 (h1 ++ [⟨.assistant, reply⟩])

/-- The retained history after one full exchange. -/
def exchangeHistory (h : List Turn) (question reply : String) : List Turn :=
  historyAfterReply (historyAfterUser h question) reply

/-- The retained history after a sequence of (question, reply) exchanges,
starting from the empty history at process start. -/
def runExchanges (pairs : List (String × String)) : List Turn :=
  pairs.foldl (fun h qr => exchangeHistory h qr.1 qr.2) []

/-- src/unnamed/part_003 (doc 2) /ask: `question || message` validated, a
mode-selected system prompt, rolling history. Returns the upstream message
list and the history as left when the call is issued. -/
def p003v2_ask (question message : Option String) (mode : Option String)
    (h : List Turn) : Except String (List Turn × List Turn) :=
  let userMessage := jsOr question message
  let m := (jsOr mode (some "Normal")).getD ""
  if truthy userMessage = false then .error "Missing message input."
  else
    let sys := if m = "Strict" then strictTemplate
      else if m = "Friendly" then friendlyTemplate
      else coachBaseTemplate
    let h1 := historyAfterUser h (userMessage.getD "")
    .ok (askMessages sys h1, h1)

/-- src/unnamed/part_004 /ask: `question || message` validated, the fixed base
prompt, rolling history. -/
def p004_ask (question message : Option String) (h : List Turn) :
    Except String (List Turn × List Turn) :=
  let userMessage := jsOr question message
  if truthy userMessage = false then .error "Missing message input."
  else
    let h1 := historyAfterUser h (userMessage.getD "")
    .ok (askMessages coachBaseTemplate h1, h1)

/-! ### /v1/coach/ask (part_002 doc 1) -/

/-- One line of the vault-status summary:
`${vault_type}: ${pct}% saved, streak ${streak} days`. -/
def vaultContextLine (v : Vault) : String :=
  v.vault_type ++ ": " ++ toString (progressOf v) ++ "% saved, streak " ++
    toString v.streak ++ " days"

/-- src/unnamed/part_002 lines 70-89, `getVaultContext`. -/
def getVaultContext (user_id : Option String) (rows : List Vault) : String :=
  if truthy user_id = false then "User not logged in."
  else
    match activeVaults rows with
    | [] => "User currently has no vaults."
    | v :: vs => String.intercalate "\n" ((v :: vs).map vaultContextLine)

/-- src/unnamed/part_002 lines 126-133: the `personalities` lookup; an
unlisted mode yields no entry (JS: undefined). -/
def personalities (finalMode : String) : Option String :=
  if finalMode = "Warm & Friendly" then some "You are warm, supportive, and conversational."
  else if finalMode = "Energetic & Motivating" then some "You are high-energy and motivating."
  else if finalMode = "Professional & Direct" then some "You are structured and direct."
  else if finalMode = "Soothing & Calm" then some "You are gentle, grounding, and calming."
  else if finalMode = "Expert Financial Advisor" then some "You are analytical, strategic, and expert-level."
  else none

/-- src/unnamed/part_002 lines 135-151, `buildSystemPrompt` (not trimmed). -/
def buildSystemPrompt (finalMode vaultContext : String) : String :=
  "\nYou are the AI Vault Coach for the DebtVault app.\n\nUser Vault Status:\n" ++
    vaultContext ++ "\n\nTone Mode: " ++ finalMode ++ "\n\nPersonality Rules:\n" ++
    jsShow (personalities finalMode) ++
    "\n\nRules:\n• Always give ONE actionable step.\n• Always be encouraging.\n• Keep responses short unless detail is required.\n"

/-- src/unnamed/part_002 lines 156-186, /v1/coach/ask: validated question,
adaptive mode, synthesized system prompt from the user's vault rows. -/
def coachAsk (question user_id coachMode : Option String) (rows : List Vault) :
    Except String (List Turn) :=
  let requestedMode := coachMode.getD "Warm & Friendly"
  if truthy question = false then .error "Missing question."
  else
    let vaultContext := getVaultContext user_id rows
    let finalMode := detectAdaptiveMode (question.getD "") requestedMode
    .ok [⟨.system, buildSystemPrompt finalMode vaultContext⟩,
      ⟨.user, question.getD ""⟩]

/-! ### Reply extraction from the completion response

`content` is `completion.choices[0]?.message?.content`: absent when the API
returned no content. -/

/-- src/index.js line 45 (also part_003 doc 1): `content || fallback`, no trim. -/
def index_reply (content : Option String) : String :=
  if truthy content then content.getD "" else "No reply generated."

/-- src/unnamed/part_000 line 72 (also part_001, part_003 doc 2, part_004):
`content?.trim() || fallback`. -/
def p000_reply (content : Option String) : String :=
  match content with
  | none => "No reply generated."
  | some s => if jsTrim s = "" then "No reply generated." else jsTrim s

/-- src/unnamed/part_002 lines 182-184, /v1/coach/ask:
`content || fallback`, no trim. -/
def coach_reply (content : Option String) : String :=
  if truthy content then content.getD ""
  else "I'm not sure — try rephrasing your question."

/-! ### part_002 (doc 2): the random legacy /get-nudge -/

/-- src/unnamed/part_002 lines 373-379: the five canned daily nudges. -/
def dailyNudges : List String :=
  ["You’re only one small deposit away from keeping your streak alive.",
   "Small steps add up — drop $1 into your Rent vault today.",
   "Missing a day is okay, but don’t make it two.",
   "Momentum beats motivation. Just act once!",
   "Consistency > big deposits. Tap that Add button 💪"]

/-- src/unnamed/part_002 lines 364-389, the legacy /get-nudge: validates
user_id, then returns `dailyNudges[Math.floor(Math.random() * 5)]`. The draw
`r` is the value of that `Math.random()` consumption in the run. -/
def legacyGetNudge (user_id : Option String) (r : Fin 5) : Except String String :=
  if truthy user_id = false then .error "Missing user_id"
  else .ok (dailyNudges.getD r.val "")

/-- A run of part_001's /get-nudge with the process's random draw available:
the handler never consults it (the nudge is a function of the body and rows). -/
def getNudgeRun (user_id : Option String) (rows : List Vault) (_r : Fin 5) :
    NudgeResult :=
  getNudgePart001 user_id rows

/-- A run of /v1/coach/nudge with the process's random draw available: the
handler never consults it. -/
def coachNudgeRun (streak progress : Option Int) (vault_type : Option String)
    (_r : Fin 5) : Nat × String :=
  coachNudgeHandler streak progress vault_type

/-! ## Helper lemmas -/

/-- `List.find?` returns the element at the first position satisfying `p`. -/
theorem find?_first_iff {α : Type} (p : α → Bool) (l : List α) (a : α) :
    l.find? p = some a ↔
      ∃ i : Fin l.length, l.get i = a ∧ p a = true ∧
        ∀ j : Fin l.length, (j : ℕ) < (i : ℕ) → p (l.get j) = false := by
  induction l with
  | nil =>
    constructor
    · intro h; cases h
    · rintro ⟨i, -⟩; exact i.elim0
  | cons x t ih =>
    by_cases hp : p x = true
    · rw [List.find?_cons_of_pos _ hp]
      constructor
      · intro h
        injection h with h; subst h
        exact ⟨⟨0, Nat.succ_pos _⟩, rfl, hp,
          fun j hj => absurd hj (Nat.not_lt_zero _)⟩
      · rintro ⟨⟨iv, hi⟩, hget, hpa, hfirst⟩
        cases iv with
        | zero => rw [show (x :: t).get ⟨0, hi⟩ = x from rfl] at hget; rw [hget]
        | succ n =>
          have h0 := hfirst ⟨0, Nat.succ_pos _⟩ (Nat.succ_pos _)
          rw [show (x :: t).get ⟨0, Nat.succ_pos _⟩ = x from rfl] at h0
          rw [hp] at h0; cases h0
    · rw [List.find?_cons_of_neg _ hp]
      rw [ih]
      have hpx : p x = false := by revert hp; cases p x <;> simp
      have hlen : (x :: t).length = t.length + 1 := List.length_cons x t
      constructor
      · rintro ⟨⟨iv, hi⟩, hget, hpa, hfirst⟩
        refine ⟨⟨iv + 1, by omega⟩, by simpa using hget, hpa, ?_⟩
        rintro ⟨jv, hj⟩ hlt
        have hlt' : jv < iv + 1 := hlt
        cases jv with
        | zero => simpa using hpx
        | succ m =>
          have := hfirst ⟨m, by omega⟩ (by
            show m < iv
            omega)
          simpa using this
      · rintro ⟨⟨iv, hi⟩, hget, hpa, hfirst⟩
        cases iv with
        | zero =>
          rw [show (x :: t).get ⟨0, hi⟩ = x from rfl] at hget
          exact absurd (hget ▸ hpa) hp
        | succ n =>
          refine ⟨⟨n, by omega⟩, by simpa using hget, hpa, ?_⟩
          rintro ⟨jv, hj⟩ hlt
          have hlt' : jv < n := hlt
          have := hfirst ⟨jv + 1, by omega⟩ (by
            show jv + 1 < n + 1
            omega)
          simpa using this

/-- When `question || message` is falsy, so is each of the two fields. -/
theorem truthy_jsOr_false {q m : Option String}
    (h : truthy (jsOr q m) = false) : truthy q = false ∧ truthy m = false := by
  by_cases hq : truthy q = true
  · rw [jsOr, if_pos hq] at h; rw [hq] at h; cases h
  · have hq' : truthy q = false := by revert hq; cases truthy q <;> simp
    rw [jsOr, if_neg (by simp [hq'])] at h
    exact ⟨hq', h⟩

/-- The `find || find || head` chain of /get-nudge, by cases: the first vault
with streak ≥ 5; else (no such vault) the first Credit Card vault; else (none
of either) the head of the list. -/
theorem selectVault_cases (v0 : Vault) (rest : List Vault) :
    (∃ i : Fin (v0 :: rest).length,
        (v0 :: rest).get i = selectVault (v0 :: rest) v0 ∧
        5 ≤ (selectVault (v0 :: rest) v0).streak ∧
        ∀ j : Fin (v0 :: rest).length, (j : ℕ) < (i : ℕ) →
          ¬ 5 ≤ ((v0 :: rest).get j).streak)
    ∨ ((∀ w ∈ v0 :: rest, ¬ 5 ≤ w.streak) ∧
       ∃ i : Fin (v0 :: rest).length,
         (v0 :: rest).get i = selectVault (v0 :: rest) v0 ∧
         (selectVault (v0 :: rest) v0).vault_type = "Credit Card" ∧
         ∀ j : Fin (v0 :: rest).length, (j : ℕ) < (i : ℕ) →
           ((v0 :: rest).get j).vault_type ≠ "Credit Card")
    ∨ ((∀ w ∈ v0 :: rest, ¬ 5 ≤ w.streak) ∧
       (∀ w ∈ v0 :: rest, w.vault_type ≠ "Credit Card") ∧
       selectVault (v0 :: rest) v0 = v0) := by
  cases h1 : (v0 :: rest).find? (fun v => decide (5 ≤ v.streak)) with
  | some w =>
    left
    have hsel : selectVault (v0 :: rest) v0 = w := by simp [selectVault, h1]
    rw [hsel]
    obtain ⟨i, hget, hpw, hfirst⟩ := (find?_first_iff _ _ _).mp h1
    exact ⟨i, hget, by simpa using hpw, fun j hj => by simpa using hfirst j hj⟩
  | none =>
    have hall1 : ∀ w ∈ v0 :: rest, ¬ 5 ≤ w.streak := by
      intro w hw
      have := List.find?_eq_none.mp h1 w hw
      simpa using this
    cases h2 : (v0 :: rest).find? (fun v => decide (v.vault_type = "Credit Card")) with
    | some w =>
      right; left
      have hsel : selectVault (v0 :: rest) v0 = w := by simp [selectVault, h1, h2]
      rw [hsel]
      obtain ⟨i, hget, hpw, hfirst⟩ := (find?_first_iff _ _ _).mp h2
      exact ⟨hall1, i, hget, by simpa using hpw,
        fun j hj => by simpa using hfirst j hj⟩
    | none =>
      right; right
      have hall2 : ∀ w ∈ v0 :: rest, w.vault_type ≠ "Credit Card" := by
        intro w hw
        have := List.find?_eq_none.mp h2 w hw
        simpa using this
      exact ⟨hall1, hall2, by simp [selectVault, h1, h2]⟩

/-! ## Claim theorems -/

/-- C1: with progress and streak defined, both the record-based rule block
(part_001 /get-nudge) and the explicit-field one (/v1/coach/nudge) pick the
nudge by the ordered threshold rules, first match winning: progress < 15 gives
the kickstart message even when streak ≥ 5; else streak ≥ 5 the streak
message; else progress ≥ 90 the near-completion message (containing
100 - progress); else Credit Card with progress ≥ 50 the halfway message;
else the generic growth message. -/
theorem nudge_threshold_first_match (s p : Int) (vt : String) :
    ((p < 15 → nudgeText001 s p vt = msg001_kick vt) ∧
     (¬ p < 15 → 5 ≤ s → nudgeText001 s p vt = msg001_streak s vt) ∧
     (¬ p < 15 → ¬ 5 ≤ s → 90 ≤ p → nudgeText001 s p vt = msg001_near p vt) ∧
     (¬ p < 15 → ¬ 5 ≤ s → ¬ 90 ≤ p → vt = "Credit Card" → 50 ≤ p →
        nudgeText001 s p vt = msg001_half vt) ∧
     (¬ p < 15 → ¬ 5 ≤ s → ¬ 90 ≤ p → ¬ (vt = "Credit Card" ∧ 50 ≤ p) →
        nudgeText001 s p vt = msg001_grow vt)) ∧
    ((p < 15 → coachNudge (some s) (some p) (some vt) = msg002_kick (some vt)) ∧
     (¬ p < 15 → 5 ≤ s →
        coachNudge (some s) (some p) (some vt) = msg002_streak (some s) (some vt)) ∧
     (¬ p < 15 → ¬ 5 ≤ s → 90 ≤ p →
        coachNudge (some s) (some p) (some vt) = msg002_near (some p) (some vt)) ∧
     (¬ p < 15 → ¬ 5 ≤ s → ¬ 90 ≤ p → vt = "Credit Card" → 50 ≤ p →
        coachNudge (some s) (some p) (some vt) = msg002_half (some vt)) ∧
     (¬ p < 15 → ¬ 5 ≤ s → ¬ 90 ≤ p → ¬ (vt = "Credit Card" ∧ 50 ≤ p) →
        coachNudge (some s) (some p) (some vt) = msg002_grow (some vt))) := by
  refine ⟨⟨?_, ?_, ?_, ?_, ?_⟩, ?_, ?_, ?_, ?_, ?_⟩
  · intro h1
    simp [nudgeText001, h1]
  · intro h1 h2
    simp [nudgeText001, h1, h2]
  · intro h1 h2 h3
    simp [nudgeText001, h1, h2, h3]
  · intro h1 h2 h3 hvt h50
    subst hvt
    simp [nudgeText001, h1, h2, h3, h50]
  · intro h1 h2 h3 h4
    simp [nudgeText001, h1, h2, h3, h4]
  · intro h1
    simp [coachNudge, jsLt, h1]
  · intro h1 h2
    simp [coachNudge, jsLt, jsGe, h1, h2]
  · intro h1 h2 h3
    simp [coachNudge, jsLt, jsGe, h1, h2, h3]
  · intro h1 h2 h3 hvt h50
    subst hvt
    simp [coachNudge, jsLt, jsGe, h1, h2, h3, h50]
  · intro h1 h2 h3 h4
    have hb : ((some vt == some "Credit Card") && jsGe (some p) 50) = false := by
      by_cases hv : vt = "Credit Card"
      · have h50 : ¬ 50 ≤ p := fun hle => h4 ⟨hv, hle⟩
        simp [jsGe, h50]
      · simp [hv]
    unfold coachNudge
    rw [if_neg (by simp [jsLt, h1]), if_neg (by simp [jsGe, h2]),
      if_neg (by simp [jsGe, h3]), if_neg (by rw [hb]; exact Bool.false_ne_true)]

/-- C1 witness: streak 7, progress 50, vault type Rent hits rule 2 in both
rule blocks. -/
theorem nudge_threshold_first_match_witness :
    nudgeText001 7 50 "Rent" = msg001_streak 7 "Rent" ∧
    coachNudge (some 7) (some 50) (some "Rent") =
      msg002_streak (some 7) (some "Rent") :=
  ⟨(nudge_threshold_first_match 7 50 "Rent").1.2.1 (by norm_num) (by norm_num),
   (nudge_threshold_first_match 7 50 "Rent").2.2.1 (by norm_num) (by norm_num)⟩

/-- C3 counterexample: the claim names "anxiety" in the first keyword set, but
the code's keyword is "anxious", so a question containing "anxiety" does not
yield "Soothing & Calm" — the requested mode comes back instead. -/
theorem detectAdaptiveMode_keyword_counterexample :
    strIncludes (strToLower "i have anxiety") "anxiety" = true ∧
    detectAdaptiveMode "i have anxiety" "Normal" = "Normal" ∧
    "Normal" ≠ "Soothing & Calm" := by
  refine ⟨by decide, by decide, by decide⟩

/-- C3 amended: finalMode is resolved by scanning the lowercased question for
the code's keyword sets — stressed/overwhelmed/anxious, hype/motivation/boost,
discipline/"hold me accountable", strategy/optimize/plan — in that priority
order, first match winning; any question containing "overwhelmed" yields
"Soothing & Calm" regardless of requested mode; with no match, the requested
mode when truthy, else "Warm & Friendly". -/
theorem detectAdaptiveMode_priority (q m : String) :
    ((strIncludes (strToLower q) "stressed" || strIncludes (strToLower q) "overwhelmed" ||
        strIncludes (strToLower q) "anxious") = true →
      detectAdaptiveMode q m = "Soothing & Calm") ∧
    ((strIncludes (strToLower q) "stressed" || strIncludes (strToLower q) "overwhelmed" ||
        strIncludes (strToLower q) "anxious") = false →
     (strIncludes (strToLower q) "hype" || strIncludes (strToLower q) "motivation" ||
        strIncludes (strToLower q) "boost") = true →
      detectAdaptiveMode q m = "Energetic & Motivating") ∧
    ((strIncludes (strToLower q) "stressed" || strIncludes (strToLower q) "overwhelmed" ||
        strIncludes (strToLower q) "anxious") = false →
     (strIncludes (strToLower q) "hype" || strIncludes (strToLower q) "motivation" ||
        strIncludes (strToLower q) "boost") = false →
     (strIncludes (strToLower q) "discipline" ||
        strIncludes (strToLower q) "hold me accountable") = true →
      detectAdaptiveMode q m = "Professional & Direct") ∧
    ((strIncludes (strToLower q) "stressed" || strIncludes (strToLower q) "overwhelmed" ||
        strIncludes (strToLower q) "anxious") = false →
     (strIncludes (strToLower q) "hype" || strIncludes (strToLower q) "motivation" ||
        strIncludes (strToLower q) "boost") = false →
     (strIncludes (strToLower q) "discipline" ||
        strIncludes (strToLower q) "hold me accountable") = false →
     (strIncludes (strToLower q) "strategy" || strIncludes (strToLower q) "optimize" ||
        strIncludes (strToLower q) "plan") = true →
      detectAdaptiveMode q m = "Expert Financial Advisor") ∧
    ((strIncludes (strToLower q) "stressed" || strIncludes (strToLower q) "overwhelmed" ||
        strIncludes (strToLower q) "anxious") = false →
     (strIncludes (strToLower q) "hype" || strIncludes (strToLower q) "motivation" ||
        strIncludes (strToLower q) "boost") = false →
     (strIncludes (strToLower q) "discipline" ||
        strIncludes (strToLower q) "hold me accountable") = false →
     (strIncludes (strToLower q) "strategy" || strIncludes (strToLower q) "optimize" ||
        strIncludes (strToLower q) "plan") = false →
      detectAdaptiveMode q m = (if m = "" then "Warm & Friendly" else m)) ∧
    (strIncludes (strToLower q) "overwhelmed" = true →
      detectAdaptiveMode q m = "Soothing & Calm") := by
  refine ⟨?_, ?_, ?_, ?_, ?_, ?_⟩
  · intro h1
    simp [detectAdaptiveMode, h1]
  · intro h1 h2
    simp [detectAdaptiveMode, h1, h2]
  · intro h1 h2 h3
    simp [detectAdaptiveMode, h1, h2, h3]
  · intro h1 h2 h3 h4
    simp [detectAdaptiveMode, h1, h2, h3, h4]
  · intro h1 h2 h3 h4
    by_cases hm : m = "" <;>
      simp [detectAdaptiveMode, truthy, h1, h2, h3, h4, hm]
  · intro h
    have h1 : (strIncludes (strToLower q) "stressed" ||
        strIncludes (strToLower q) "overwhelmed" ||
        strIncludes (strToLower q) "anxious") = true := by
      simp [h]
    simp [detectAdaptiveMode, h1]

/-- C3 witness: "overwhelmed" wins over an explicit requested mode. -/
theorem detectAdaptiveMode_priority_witness :
    detectAdaptiveMode "I feel overwhelmed by my card debt" "Professional & Direct" =
      "Soothing & Calm" :=
  (detectAdaptiveMode_priority "I feel overwhelmed by my card debt"
    "Professional & Direct").2.2.2.2.2 (by decide)

/-- C10: /v1/coach/nudge validates nothing: every body gets HTTP 200 with a
nudge string; with progress and streak both absent every threshold comparison
is false, so the generic growth message comes back, and with all three fields
absent it carries the default emoji and the literal text "undefined". -/
theorem coachNudge_no_validation (s p : Option Int) (vt : Option String) :
    (coachNudgeHandler s p vt).1 = 200 ∧
    (p = none → s = none →
      (coachNudgeHandler s p vt).2 = msg002_grow vt) ∧
    (coachNudgeHandler none none none).2 =
      "Your 🏦 undefined vault is growing. Add a little today 🌱" := by
  refine ⟨rfl, ?_, by decide⟩
  intro hp hs
  subst hp; subst hs
  simp [coachNudgeHandler, coachNudge, jsLt, jsGe]

/-- C10 witness: the all-absent body. -/
theorem coachNudge_no_validation_witness :
    (coachNudgeHandler none none none).1 = 200 ∧
    (coachNudgeHandler none none none).2 =
      "Your 🏦 undefined vault is growing. Add a little today 🌱" :=
  ⟨(coachNudge_no_validation none none none).1,
   (coachNudge_no_validation none none none).2.2⟩

/-- C2: on a non-empty store result, the vault nudged about is the first with
streak ≥ 5, else the first Credit Card vault, else the first of the sequence,
and its progress is round(current_balance / target_amount * 100). -/
theorem getNudge_vault_selection (uid : Option String) (rows : List Vault)
    (huid : truthy uid = true) (hne : activeVaults rows ≠ []) :
    ∃ v : Vault,
      getNudgePart001 uid rows =
        NudgeResult.nudge (nudgeText001 v.streak
          (jsRound (v.current_balance / v.target_amount * 100)) v.vault_type) ∧
      ((∃ i : Fin (activeVaults rows).length,
          (activeVaults rows).get i = v ∧ 5 ≤ v.streak ∧
          ∀ j : Fin (activeVaults rows).length, (j : ℕ) < (i : ℕ) →
            ¬ 5 ≤ ((activeVaults rows).get j).streak)
       ∨ ((∀ w ∈ activeVaults rows, ¬ 5 ≤ w.streak) ∧
          ∃ i : Fin (activeVaults rows).length,
            (activeVaults rows).get i = v ∧ v.vault_type = "Credit Card" ∧
            ∀ j : Fin (activeVaults rows).length, (j : ℕ) < (i : ℕ) →
              ((activeVaults rows).get j).vault_type ≠ "Credit Card")
       ∨ ((∀ w ∈ activeVaults rows, ¬ 5 ≤ w.streak) ∧
          (∀ w ∈ activeVaults rows, w.vault_type ≠ "Credit Card") ∧
          (activeVaults rows).head? = some v)) := by
  rcases hv : activeVaults rows with - | ⟨v0, rest⟩
  · exact absurd hv hne
  · refine ⟨selectVault (v0 :: rest) v0, ?_, ?_⟩
    · unfold getNudgePart001
      rw [if_neg (by simp [huid]), hv]
      rfl
    · rcases selectVault_cases v0 rest with
        ⟨i, hget, hstreak, hfirst⟩ | ⟨hall, i, hget, hcc, hfirst⟩ |
        ⟨hall1, hall2, heq⟩
      · exact Or.inl ⟨i, hget, hstreak, hfirst⟩
      · exact Or.inr (Or.inl ⟨hall, i, hget, hcc, hfirst⟩)
      · exact Or.inr (Or.inr ⟨hall1, hall2, by rw [heq]; rfl⟩)

/-- C2 witness: a single non-archived Rent vault at 30 of 100 — neither
priority rule fires, the head is used, progress is 30. -/
theorem getNudge_vault_selection_witness :
    ∃ v : Vault,
      getNudgePart001 (some "user-1") [⟨"Rent", 2, 30, 100, false⟩] =
        NudgeResult.nudge (nudgeText001 v.streak
          (jsRound (v.current_balance / v.target_amount * 100)) v.vault_type) ∧
      ((∃ i : Fin (activeVaults [⟨"Rent", 2, 30, 100, false⟩]).length,
          (activeVaults [⟨"Rent", 2, 30, 100, false⟩]).get i = v ∧ 5 ≤ v.streak ∧
          ∀ j : Fin (activeVaults [⟨"Rent", 2, 30, 100, false⟩]).length,
            (j : ℕ) < (i : ℕ) →
            ¬ 5 ≤ ((activeVaults [⟨"Rent", 2, 30, 100, false⟩]).get j).streak)
       ∨ ((∀ w ∈ activeVaults [⟨"Rent", 2, 30, 100, false⟩], ¬ 5 ≤ w.streak) ∧
          ∃ i : Fin (activeVaults [⟨"Rent", 2, 30, 100, false⟩]).length,
            (activeVaults [⟨"Rent", 2, 30, 100, false⟩]).get i = v ∧
            v.vault_type = "Credit Card" ∧
            ∀ j : Fin (activeVaults [⟨"Rent", 2, 30, 100, false⟩]).length,
              (j : ℕ) < (i : ℕ) →
              ((activeVaults [⟨"Rent", 2, 30, 100, false⟩]).get j).vault_type ≠
                "Credit Card")
       ∨ ((∀ w ∈ activeVaults [⟨"Rent", 2, 30, 100, false⟩], ¬ 5 ≤ w.streak) ∧
          (∀ w ∈ activeVaults [⟨"Rent", 2, 30, 100, false⟩],
            w.vault_type ≠ "Credit Card") ∧
          (activeVaults [⟨"Rent", 2, 30, 100, false⟩]).head? = some v)) :=
  getNudge_vault_selection (some "user-1") [⟨"Rent", 2, 30, 100, false⟩]
    (by decide) (by decide)

/-- C8: when the store query returns no rows (the user's vaults are all
archived, or there are none), /get-nudge answers with the fixed no-vaults
message as a normal response; no threshold rule is applied. -/
theorem getNudge_no_vaults (uid : Option String) (rows : List Vault)
    (huid : truthy uid = true) (hall : ∀ v ∈ rows, v.archived = true) :
    getNudgePart001 uid rows =
      NudgeResult.noVaults
        "You don’t have any vaults yet. Create one and start saving today 💰." := by
  have hempty : activeVaults rows = [] := by
    rw [activeVaults, List.filter_eq_nil_iff]
    intro a ha
    simp [hall a ha]
  unfold getNudgePart001
  rw [if_neg (by simp [huid]), hempty]

/-- C8 witness: one archived vault. -/
theorem getNudge_no_vaults_witness :
    getNudgePart001 (some "user-1") [⟨"Rent", 9, 50, 100, true⟩] =
      NudgeResult.noVaults
        "You don’t have any vaults yet. Create one and start saving today 💰." :=
  getNudge_no_vaults (some "user-1") [⟨"Rent", 9, 50, 100, true⟩]
    (by decide) (by decide)

/-- C4 counterexample: the legacy /ask of part_003's first document reads
`req.body.message` and checks nothing — with the message absent it still
issues the upstream call (an `ok` outcome, not a 400 error). -/
theorem askLegacy_no_validation_counterexample :
    askLegacy none =
      Except.ok [(Role.system, some "You are the AI Vault Coach."),
        (Role.user, none)] := rfl

/-- C4 amended: every ask endpoint except the legacy /ask of part_003's first
document answers 400 with an error body, before any upstream call, when the
question (or legacy message) field is empty or absent. -/
theorem ask_validation (q m cp vtype mode uid cm : Option String)
    (memory sys : String) (h : List Turn) (rows : List Vault)
    (hqm : truthy (jsOr q m) = false) :
    index_ask q m = .error "Missing message input." ∧
    p000_ask q memory cp = .error "Missing question." ∧
    p000_askStream q sys memory = .error "Missing question." ∧
    p001_ask q memory cp vtype = .error "Missing question." ∧
    coachAsk q uid cm rows = .error "Missing question." ∧
    p003v2_ask q m mode h = .error "Missing message input." ∧
    p004_ask q m h = .error "Missing message input." := by
  obtain ⟨hq, -⟩ := truthy_jsOr_false hqm
  refine ⟨?_, ?_, ?_, ?_, ?_, ?_, ?_⟩ <;>
    simp [index_ask, p000_ask, p000_askStream, p001_ask, coachAsk,
      p003v2_ask, p004_ask, hqm, hq]

/-- C4 witness: question absent, message the empty string. -/
theorem ask_validation_witness :
    index_ask none (some "") = Except.error "Missing message input." ∧
    p000_ask none "" none = Except.error "Missing question." ∧
    p000_askStream none "" "" = Except.error "Missing question." ∧
    p001_ask none "" none none = Except.error "Missing question." ∧
    coachAsk none none none [] = Except.error "Missing question." ∧
    p003v2_ask none (some "") none [] = Except.error "Missing message input." ∧
    p004_ask none (some "") [] = Except.error "Missing message input." :=
  ask_validation none (some "") none none none none none "" "" [] [] (by decide)

/-- C5 counterexample: starting from an empty history, after three exchanges
the retained history holds 4 turns, not the claimed 3 user + 3 assistant
turns: the first user turn is already gone. The mid-exchange slice to 3 keeps
the history from ever reaching 6. -/
theorem rolling_history_counterexample :
    runExchanges [("q1", "r1"), ("q2", "r2"), ("q3", "r3")] =
      [⟨Role.user, "q2"⟩, ⟨Role.assistant, "r2"⟩,
       ⟨Role.user, "q3"⟩, ⟨Role.assistant, "r3"⟩] ∧
    (⟨Role.user, "q1"⟩ : Turn) ∉
      runExchanges [("q1", "r1"), ("q2", "r2"), ("q3", "r3")] ∧
    (runExchanges [("q1", "r1"), ("q2", "r2"), ("q3", "r3")]).length ≠ 6 := by
  refine ⟨by decide, by decide, by decide⟩

/-- The history sent with a request is the last-2 suffix of the prior history
followed by the new user turn (the slice to 3 runs after the push). -/
theorem historyAfterUser_spec (h : List Turn) (q : String) :
    historyAfterUser h q = h.drop (h.length - 2) ++ [⟨Role.user, q⟩] := by
  unfold historyAfterUser truncTo
  by_cases hl : 3 < (h ++ [(⟨Role.user, q⟩ : Turn)]).length
  · rw [if_pos hl]
    have hlen : (h ++ [(⟨Role.user, q⟩ : Turn)]).length = h.length + 1 := by simp
    have h2 : h.length + 1 - 3 = h.length - 2 := by omega
    rw [hlen, h2,
      List.drop_append_of_le_length (by omega : h.length - 2 ≤ h.length)]
  · rw [if_neg hl]
    have hle : h.length + 1 ≤ 3 := by simpa using hl
    have h0 : h.length - 2 = 0 := by omega
    rw [h0, List.drop_zero]

/-- The history never holds more than 3 turns once the user turn is pushed. -/
theorem historyAfterUser_length (h : List Turn) (q : String) :
    (historyAfterUser h q).length ≤ 3 := by
  unfold historyAfterUser truncTo
  by_cases hl : 3 < (h ++ [(⟨Role.user, q⟩ : Turn)]).length
  · rw [if_pos hl, List.length_drop]
    omega
  · rw [if_neg hl]
    exact Nat.not_lt.mp hl

/-- One full exchange leaves at most 4 retained turns, whatever came before. -/
theorem exchangeHistory_length (h : List Turn) (q r : String) :
    (exchangeHistory h q r).length ≤ 4 := by
  have h3 := historyAfterUser_length h q
  unfold exchangeHistory historyAfterReply truncTo
  by_cases hl : 6 < ((historyAfterUser h q) ++ [(⟨Role.assistant, r⟩ : Turn)]).length
  · exfalso
    have : (historyAfterUser h q ++ [(⟨Role.assistant, r⟩ : Turn)]).length =
        (historyAfterUser h q).length + 1 := by simp
    omega
  · rw [if_neg hl]
    simp only [List.length_append, List.length_singleton]
    omega

/-- After any number of exchanges from process start the retained history has
at most 4 turns. -/
theorem runExchanges_length (pairs : List (String × String)) :
    (runExchanges pairs).length ≤ 4 := by
  suffices H : ∀ (ps : List (String × String)) (h : List Turn), h.length ≤ 4 →
      (ps.foldl (fun h qr => exchangeHistory h qr.1 qr.2) h).length ≤ 4 by
    exact H pairs [] (by simp)
  intro ps
  induction ps with
  | nil => intro h hh; simpa using hh
  | cons a as ih =>
    intro h hh
    exact ih _ (exchangeHistory_length h a.1 a.2)

/-- C5 amended: the upstream message list is the system prompt, then at most
the last 2 prior turns (oldest first), then the new user turn — the slice to
3 is applied after the new user turn is pushed; after a completed exchange the
retained history has at most 4 turns (the slice to 6 never fires), so it never
exceeds 6 entries after any number of exchanges. -/
theorem rolling_history_bounds (h : List Turn) (q r sys : String)
    (pairs : List (String × String)) :
    (askMessages sys (historyAfterUser h q) =
        ⟨Role.system, sys⟩ :: (h.drop (h.length - 2) ++ [⟨Role.user, q⟩]) ∧
      h.drop (h.length - 2) <:+ h ∧
      (h.drop (h.length - 2)).length ≤ 2) ∧
    (exchangeHistory h q r).length ≤ 4 ∧
    (runExchanges pairs).length ≤ 4 ∧
    (runExchanges pairs).length ≤ 6 := by
  refine ⟨⟨?_, List.drop_suffix _ _, ?_⟩, exchangeHistory_length h q r,
    runExchanges_length pairs, Nat.le_trans (runExchanges_length pairs) (by omega)⟩
  · rw [askMessages, historyAfterUser_spec]
  · rw [List.length_drop]
    omega

/-- C6 counterexample: a caller system prompt together with a non-empty memory
yields two system turns, so the caller prompt is not the sole system
instruction. -/
theorem custom_prompt_memory_counterexample :
    p000_messages (some "Coach me my way.") "Saved $10 yesterday." "How am I doing?" =
      [⟨Role.system, "Coach me my way."⟩,
       ⟨Role.system, "Here is recent user context:\nSaved $10 yesterday."⟩,
       ⟨Role.user, "How am I doing?"⟩] ∧
    (p000_messages (some "Coach me my way.") "Saved $10 yesterday."
        "How am I doing?").countP (fun t => decide (t.role = Role.system)) = 2 ∧
    (2 : ℕ) ≠ 1 := by
  refine ⟨by decide, by decide, by decide⟩

/-- C6 amended: a truthy caller system prompt is used verbatim as the first
system instruction and no template is synthesized; it is the sole system turn
exactly when the memory string is empty — a non-empty memory appends one more
labelled system turn before the user turn. -/
theorem p000_custom_prompt_sole_system (cp memory question : String)
    (hcp : cp ≠ "") :
    (p000_messages (some cp) memory question).head? =
      some ⟨Role.system, cp⟩ ∧
    (memory = "" →
      p000_messages (some cp) memory question =
        [⟨Role.system, cp⟩, ⟨Role.user, question⟩]) ∧
    (memory ≠ "" →
      p000_messages (some cp) memory question =
        [⟨Role.system, cp⟩,
         ⟨Role.system, "Here is recent user context:\n" ++ memory⟩,
         ⟨Role.user, question⟩]) := by
  have ht : truthy (some cp) = true := by simp [truthy, hcp]
  refine ⟨?_, ?_, ?_⟩
  · simp [p000_messages, ht]
  · intro hm; simp [p000_messages, ht, hm]
  · intro hm; simp [p000_messages, ht, hm]

/-- C6 witness: custom prompt with empty memory — a single system turn. -/
theorem p000_custom_prompt_sole_system_witness :
    (p000_messages (some "Be terse.") "" "Hi").head? =
      some ⟨Role.system, "Be terse."⟩ ∧
    p000_messages (some "Be terse.") "" "Hi" =
      [⟨Role.system, "Be terse."⟩, ⟨Role.user, "Hi"⟩] :=
  ⟨(p000_custom_prompt_sole_system "Be terse." "" "Hi" (by decide)).1,
   (p000_custom_prompt_sole_system "Be terse." "" "Hi" (by decide)).2.1 rfl⟩

/-- C7 counterexample: /v1/coach/ask returns the first choice's text
untrimmed, not trimmed as claimed. -/
theorem coach_reply_untrimmed_counterexample :
    coach_reply (some " Keep going! ") = " Keep going! " ∧
    jsTrim " Keep going! " = "Keep going!" ∧
    coach_reply (some " Keep going! ") ≠ jsTrim " Keep going! " := by
  refine ⟨by decide, by decide, by decide⟩

/-- C7 amended: the /ask of part_000 (and its twins) trims the first choice's
text and falls back to "No reply generated." when content is absent or trims
to empty; /v1/coach/ask and the minimal /ask return the text untrimmed and
fall back to their fixed strings only when content is absent or empty. -/
theorem reply_extraction (s : String) :
    (jsTrim s ≠ "" → p000_reply (some s) = jsTrim s) ∧
    (jsTrim s = "" → p000_reply (some s) = "No reply generated.") ∧
    p000_reply none = "No reply generated." ∧
    (s ≠ "" → coach_reply (some s) = s) ∧
    coach_reply (some "") = "I'm not sure — try rephrasing your question." ∧
    coach_reply none = "I'm not sure — try rephrasing your question." ∧
    (s ≠ "" → index_reply (some s) = s) ∧
    index_reply (some "") = "No reply generated." ∧
    index_reply none = "No reply generated." := by
  refine ⟨?_, ?_, rfl, ?_, rfl, rfl, ?_, rfl, rfl⟩
  · intro hs; simp [p000_reply, hs]
  · intro hs; simp [p000_reply, hs]
  · intro hs; simp [coach_reply, truthy, hs]
  · intro hs; simp [index_reply, truthy, hs]

/-- C7 witness: a whitespace-padded reply. -/
theorem reply_extraction_witness :
    p000_reply (some " Great job! ") = jsTrim " Great job! " ∧
    coach_reply (some " Great job! ") = " Great job! " ∧
    index_reply (some " Great job! ") = " Great job! " :=
  ⟨(reply_extraction " Great job! ").1 (by decide),
   (reply_extraction " Great job! ").2.2.2.1 (by decide),
   (reply_extraction " Great job! ").2.2.2.2.2.2.1 (by decide)⟩

/-- C9 counterexample: the legacy /get-nudge of part_002's second document
picks its message with Math.random — two runs with the identical request body
but different draws return different texts. -/
theorem legacy_nudge_random_counterexample :
    legacyGetNudge (some "user-1") 0 ≠ legacyGetNudge (some "user-1") 1 := by
  intro h
  have h1 : legacyGetNudge (some "user-1") 0 =
      Except.ok "You’re only one small deposit away from keeping your streak alive." := rfl
  have h2 : legacyGetNudge (some "user-1") 1 =
      Except.ok "Small steps add up — drop $1 into your Rent vault today." := rfl
  rw [h1, h2] at h
  injection h with h
  exact absurd h (by decide)

/-- C9 amended: the threshold-based nudge endpoints are deterministic — their
output depends only on the request body and the store's rows, never on the
process's random draw — while the legacy random /get-nudge does depend on the
draw, so two of its runs on the same input can differ. -/
theorem nudge_deterministic (uid : Option String) (rows : List Vault)
    (s p : Option Int) (vt : Option String) (d e : Fin 5) :
    getNudgeRun uid rows d = getNudgeRun uid rows e ∧
    coachNudgeRun s p vt d = coachNudgeRun s p vt e ∧
    ∃ u f g, legacyGetNudge u f ≠ legacyGetNudge u g :=
  ⟨rfl, rfl, ⟨some "user-1", 0, 1, by
    intro h
    have h1 : legacyGetNudge (some "user-1") 0 =
        Except.ok "You’re only one small deposit away from keeping your streak alive." := rfl
    have h2 : legacyGetNudge (some "user-1") 1 =
        Except.ok "Small steps add up — drop $1 into your Rent vault today." := rfl
    rw [h1, h2] at h
    injection h with h
    exact absurd h (by decide)⟩⟩

end VaultCoach
